import Mathlib

/-!
Verification of the QuestHub SignalR client core (`pkg/hub`).

Shallow embedding of the Go sources:
  * `pkg/hub/models.go` — `Client`, `Connect`, `Disconnect`, `watchStates`,
    `invoke`, `unmarshalResult`, the typed RPC methods, and the payload structs;
  * `pkg/hub/errors.go` — the error sentinels;
  * the options file — `NewClient` defaults.

Modelling conventions:
  * JSON interchange values are the inductive `JVal`; Go `map[string]interface{}`
    becomes an association list of `JVal`s, Go `[]T` becomes `List T`.
  * `time.Time` is modelled by its RFC3339 rendering (`GoTime`), which is what
    its JSON marshalling round-trips through.
  * Go `error` values are the inductive `HubErr`; `fmt.Errorf("%w: %s - %v", ...)`
    wrapping of a sentinel is `HubErr.wrapSentinel`, `fmt.Errorf("...: %w", err)`
    wrapping of an underlying cause is `HubErr.wrapCause`; a `nil` error is
    `Option.none` where the code distinguishes it.
  * `context.Context` is `Ctx` (an optional absolute deadline); a Go `nil`
    context is `Option.none` at call sites that may pass one.
  * The external SignalR transport is a behaviour parameter: for one invocation,
    `TransportBehavior` says when (if ever) the result channel would deliver and
    with what payload; `invoke`'s `select` races that arrival time against the
    effective deadline.  The first component of `invoke`'s result counts calls
    submitted to the transport (the fake-transport call counter of the spec).
  * The connection lifecycle is a transition system on `World`: the `Client`
    record plus environment bookkeeping (which created handles have been started
    and not stopped, which state-watch subscriptions still have a live loop).
-/

namespace QuestHub

/-- JSON interchange values: the canonical form `unmarshalResult` round-trips
through (`encoding/json`). Numbers are restricted to integers, the only numeric
fields the hub payloads use. -/
inductive JVal where
  | null : JVal
  | bool (b : Bool) : JVal
  | num (n : Int) : JVal
  | str (s : String) : JVal
  | arr (xs : List JVal) : JVal
  | obj (fields : List (String × JVal)) : JVal

/-- Errors of `pkg/hub/errors.go` plus the wrapped forms `fmt.Errorf` builds in
`models.go`, and external (transport / library) errors. -/
inductive HubErr where
  | notConnected : HubErr
  | notInitialized : HubErr
  | invalidQuestID : HubErr
  | invalidTemplateID : HubErr
  | connectionTimeout : HubErr
  | invokeFailed : HubErr
  | questNotFound : HubErr
  | bundleNotFound : HubErr
  | external (msg : String) : HubErr
  | wrapSentinel (sentinel : HubErr) (method : String) (cause : String) : HubErr
  | wrapCause (prefixMsg : String) (cause : HubErr) : HubErr
deriving DecidableEq, Repr

/-- Message `ctx.Err()` yields once a context deadline has passed. -/
def ctxDeadlineExceeded : String := "context deadline exceeded"

/-- A `context.Context` as `invoke` consumes it: at most an absolute deadline. -/
structure Ctx where
  deadline : Option Nat
deriving DecidableEq, Repr

/-- Model of `context.Background()`: no deadline. -/
def Ctx.background : Ctx := ⟨none⟩

/-- Result delivered on the channel `signalr.Client.Invoke` returns: a value and
an optional remote error. -/
structure SigInvokeResult where
  value : JVal
  error : Option String

/-- Behaviour of the transport for one invocation: either the result channel
delivers `res` at absolute time `arrival`, or it never delivers. -/
inductive TransportBehavior where
  | reply (arrival : Nat) (res : SigInvokeResult) : TransportBehavior
  | silent : TransportBehavior

/-- Connection states emitted by the SignalR client's state-change stream. -/
inductive SigClientState where
  | clientCreated : SigClientState
  | clientConnecting : SigClientState
  | clientConnected : SigClientState
  | clientClosed : SigClientState
deriving DecidableEq, Repr

/-- The `hub.Client` record. Handler registries hold opaque handler identifiers;
`connection` and `observeCancel` hold the identifier of the handle they were
created from (`none` models the Go `nil`). -/
structure Client where
  url : String
  timeout : Nat
  connected : Bool
  connection : Option Nat
  observeCancel : Option Nat
  readyHandlers : List Nat
  disconnectHandlers : List Nat
deriving DecidableEq, Repr

/-- Model of `NewClient` before options are applied: disconnected, no handle,
empty registries, 30-second default timeout (expressed in seconds). -/
def newClient (url : String) : Client :=
  { url := url
    timeout := 30
    connected := false
    connection := none
    observeCancel := none
    readyHandlers := []
    disconnectHandlers := [] }

/-- Model of the `WithTimeout` client option. -/
def withTimeout (t : Nat) (c : Client) : Client := { c with timeout := t }

/-- Model of `Client.invoke`. Mirrors the Go body line by line: connectivity
check first (no transport call on failure), `nil`-context replacement by
`context.Background()`, deadline derivation from the configured timeout when the
context carries none, then one transport submission raced against the deadline.
A tie between result arrival and deadline is resolved as the deadline firing
first (Go's `select` picks arbitrarily; the deadline branch is the resolution
used throughout). The first component counts calls submitted to the transport. -/
def Client.invoke (c : Client) (tr : TransportBehavior) (ctx0 : Option Ctx)
    (now : Nat) (method : String) (_args : List JVal) :
    Nat × Except HubErr JVal :=
  if c.connected = false then
    (0, .error .notConnected)
  else
    let ctx := ctx0.getD Ctx.background
    let deadline :=
      match ctx.deadline with
      | some d => d
      | none => now + c.timeout
    match tr with
    | .reply arrival res =>
        if arrival < deadline then
          match res.error with
          | some cause => (1, .error (.wrapSentinel .invokeFailed method cause))
          | none => (1, .ok res.value)
        else
          (1, .error (.wrapSentinel .connectionTimeout method ctxDeadlineExceeded))
    | .silent =>
        (1, .error (.wrapSentinel .connectionTimeout method ctxDeadlineExceeded))

/-- Effective deadline of an `invoke` call, stated as the spec words it: a
caller context with a deadline is honoured as-is, otherwise (including a `nil`
context) the configured default timeout starts at the moment of the call. -/
def effectiveDeadline (ctx0 : Option Ctx) (now timeout : Nat) : Nat :=
  match ctx0 with
  | none => now + timeout
  | some cx =>
      match cx.deadline with
      | some d => d
      | none => now + timeout

/-- Model of `Client.unmarshalResult`: marshal the opaque result back to the
canonical interchange form and unmarshal it into the typed target. Marshalling
a `JVal` is the identity on the canonical form and cannot fail; unmarshalling
is the target type's decoder `dec`, and a shape mismatch is the wrapped
unmarshal error. -/
def Client.unmarshalResult {α : Type} (_c : Client) (result : JVal)
    (dec : JVal → Option α) : Except HubErr α :=
  match dec result with
  | some v => .ok v
  | none => .error (.wrapCause "failed to unmarshal result" (.external "json: cannot unmarshal"))

/-! ## Typed payloads (`models.go`) and their JSON codecs

Each `encX` is what `json.Marshal` produces for the struct, honouring the
`json:"...,omitempty"` tags; each `decX` is what `json.Unmarshal` computes when
decoding the canonical form into the struct: a missing or `null` field leaves
the Go zero value, a field of the wrong shape is an unmarshal error (`none`). -/

/-- A `time.Time`, modelled by the RFC3339 string its JSON marshalling emits. -/
structure GoTime where
  rfc3339 : String
deriving DecidableEq, Repr

/-- RFC3339 rendering of the Go zero `time.Time`. -/
def GoTime.zero : GoTime := ⟨"0001-01-01T00:00:00Z"⟩

structure ServiceStatus where
  initialized : Bool
  version : String
  timestamp : GoTime
deriving DecidableEq, Repr

structure ReadyStatus where
  initialized : Bool
  version : String
  refreshed : Bool
deriving DecidableEq, Repr

structure CacheResult where
  success : Bool
  version : String
  keysCleared : Int
  patterns : List String
  timestamp : GoTime
deriving DecidableEq, Repr

structure BaseQuest where
  objectives : List (String × JVal)
  rewards : List (String × JVal)
  count : Int

structure ChallengeBundleReward where
  templateID : String
  quantity : Int
deriving DecidableEq, Repr

structure ChallengeBundleObjective where
  backendName : String
  count : Int
  stage : Int
deriving DecidableEq, Repr

structure ChallengeBundleOptions where
  isBattlePass : Bool
  isOvertime : Bool
  grantWithPass : Bool
  progressOnBattlePassPurchased : Bool
  athenaSeasonProgress : Bool
  battlePassProgress : Bool
  gainAthenaSeasonXP : Bool
deriving DecidableEq, Repr

structure ChallengeBundleObject where
  questDefinition : String
  rarity : String
  rewards : List ChallengeBundleReward
  objectives : List ChallengeBundleObjective
  options : ChallengeBundleOptions

structure BundleCompletionReward where
  templateID : String
  quantity : Int
deriving DecidableEq, Repr

structure AthenaChallengeBundle where
  templateID : String
  challengeBundleSchedule : String
  objects : List ChallengeBundleObject
  amount : Int
  rarity : String
  completionRewards : List BundleCompletionReward

structure ChallengeBundleSchedule where
  templateID : String
  questBundle : String
deriving DecidableEq, Repr

/-- Field lookup in a decoded JSON object. -/
def getField (fields : List (String × JVal)) (k : String) : Option JVal :=
  (fields.find? (fun p => p.1 == k)).map (fun p => p.2)

/-- Unmarshal a `bool` field: absent or `null` keeps the zero value `false`. -/
def decBoolField : Option JVal → Option Bool
  | none => some false
  | some .null => some false
  | some (.bool b) => some b
  | some _ => none

/-- Unmarshal a `string` field: absent or `null` keeps the zero value `""`. -/
def decStrField : Option JVal → Option String
  | none => some ""
  | some .null => some ""
  | some (.str s) => some s
  | some _ => none

/-- Unmarshal an `int` field: absent or `null` keeps the zero value `0`. -/
def decIntField : Option JVal → Option Int
  | none => some 0
  | some .null => some 0
  | some (.num n) => some n
  | some _ => none

/-- Unmarshal a `time.Time` field: absent or `null` keeps the zero time. -/
def decTimeField : Option JVal → Option GoTime
  | none => some GoTime.zero
  | some .null => some GoTime.zero
  | some (.str s) => some ⟨s⟩
  | some _ => none

/-- Decode every element of a JSON array with `dec`, failing if any element
fails (the behaviour of `json.Unmarshal` into a slice). -/
def decList {α : Type} (dec : JVal → Option α) : List JVal → Option (List α)
  | [] => some []
  | v :: vs => do
      let a ← dec v
      let rest ← decList dec vs
      pure (a :: rest)

/-- Unmarshal a `[]T` field: absent or `null` keeps the zero value (nil slice,
modelled as `[]`). -/
def decArrField {α : Type} (dec : JVal → Option α) : Option JVal → Option (List α)
  | none => some []
  | some .null => some []
  | some (.arr xs) => decList dec xs
  | some _ => none

/-- Unmarshal a single `string` array element. -/
def decStrElem : JVal → Option String
  | .str s => some s
  | _ => none

def encServiceStatus (s : ServiceStatus) : JVal :=
  .obj [("initialized", .bool s.initialized),
        ("version", .str s.version),
        ("timestamp", .str s.timestamp.rfc3339)]

def decServiceStatus : JVal → Option ServiceStatus
  | .obj fs => do
      let i ← decBoolField (getField fs "initialized")
      let v ← decStrField (getField fs "version")
      let t ← decTimeField (getField fs "timestamp")
      pure ⟨i, v, t⟩
  | _ => none

def encReadyStatus (r : ReadyStatus) : JVal :=
  .obj ([("initialized", .bool r.initialized),
         ("version", .str r.version)] ++
        (if r.refreshed then [("refreshed", .bool r.refreshed)] else []))

def decReadyStatus : JVal → Option ReadyStatus
  | .obj fs => do
      let i ← decBoolField (getField fs "initialized")
      let v ← decStrField (getField fs "version")
      let r ← decBoolField (getField fs "refreshed")
      pure ⟨i, v, r⟩
  | _ => none

def encCacheResult (c : CacheResult) : JVal :=
  .obj ([("success", .bool c.success),
         ("version", .str c.version),
         ("keysCleared", .num c.keysCleared)] ++
        (if c.patterns.isEmpty then []
         else [("patterns", .arr (c.patterns.map .str))]) ++
        [("timestamp", .str c.timestamp.rfc3339)])

def decCacheResult : JVal → Option CacheResult
  | .obj fs => do
      let s ← decBoolField (getField fs "success")
      let v ← decStrField (getField fs "version")
      let k ← decIntField (getField fs "keysCleared")
      let p ← decArrField decStrElem (getField fs "patterns")
      let t ← decTimeField (getField fs "timestamp")
      pure ⟨s, v, k, p, t⟩
  | _ => none

/-- Unmarshal a `map[string]interface{}` field: absent or `null` keeps the nil
map (modelled as the empty association list). -/
def decMapField : Option JVal → Option (List (String × JVal))
  | none => some []
  | some .null => some []
  | some (.obj fs) => some fs
  | some _ => none

def encBaseQuest (q : BaseQuest) : JVal :=
  .obj [("objectives", .obj q.objectives),
        ("rewards", .obj q.rewards),
        ("count", .num q.count)]

def decBaseQuest : JVal → Option BaseQuest
  | .obj fs => do
      let o ← decMapField (getField fs "objectives")
      let r ← decMapField (getField fs "rewards")
      let n ← decIntField (getField fs "count")
      pure ⟨o, r, n⟩
  | _ => none

def encCBReward (r : ChallengeBundleReward) : JVal :=
  .obj [("templateId", .str r.templateID), ("quantity", .num r.quantity)]

def decCBReward : JVal → Option ChallengeBundleReward
  | .obj fs => do
      let t ← decStrField (getField fs "templateId")
      let q ← decIntField (getField fs "quantity")
      pure ⟨t, q⟩
  | _ => none

def encCBObjective (o : ChallengeBundleObjective) : JVal :=
  .obj ([("backendName", .str o.backendName),
         ("count", .num o.count)] ++
        (if o.stage == 0 then [] else [("stage", .num o.stage)]))

def decCBObjective : JVal → Option ChallengeBundleObjective
  | .obj fs => do
      let b ← decStrField (getField fs "backendName")
      let c ← decIntField (getField fs "count")
      let s ← decIntField (getField fs "stage")
      pure ⟨b, c, s⟩
  | _ => none

def encCBOptions (o : ChallengeBundleOptions) : JVal :=
  .obj [("isBattlePass", .bool o.isBattlePass),
        ("isOvertime", .bool o.isOvertime),
        ("grantWithPass", .bool o.grantWithPass),
        ("progressOnBattlePassPurchased", .bool o.progressOnBattlePassPurchased),
        ("athenaSeasonProgress", .bool o.athenaSeasonProgress),
        ("battlePassProgress", .bool o.battlePassProgress),
        ("gainAthenaSeasonXP", .bool o.gainAthenaSeasonXP)]

def decCBOptions : JVal → Option ChallengeBundleOptions
  | .obj fs => do
      let a ← decBoolField (getField fs "isBattlePass")
      let b ← decBoolField (getField fs "isOvertime")
      let c ← decBoolField (getField fs "grantWithPass")
      let d ← decBoolField (getField fs "progressOnBattlePassPurchased")
      let e ← decBoolField (getField fs "athenaSeasonProgress")
      let f ← decBoolField (getField fs "battlePassProgress")
      let g ← decBoolField (getField fs "gainAthenaSeasonXP")
      pure ⟨a, b, c, d, e, f, g⟩
  | _ => none

/-- Unmarshal a nested struct field: absent or `null` keeps the zero struct,
which for `ChallengeBundleOptions` is all-`false`. -/
def decCBOptionsField : Option JVal → Option ChallengeBundleOptions
  | none => some ⟨false, false, false, false, false, false, false⟩
  | some .null => some ⟨false, false, false, false, false, false, false⟩
  | some v => decCBOptions v

def encCBObject (o : ChallengeBundleObject) : JVal :=
  .obj [("questDefinition", .str o.questDefinition),
        ("rarity", .str o.rarity),
        ("rewards", .arr (o.rewards.map encCBReward)),
        ("objectives", .arr (o.objectives.map encCBObjective)),
        ("options", encCBOptions o.options)]

def decCBObject : JVal → Option ChallengeBundleObject
  | .obj fs => do
      let q ← decStrField (getField fs "questDefinition")
      let r ← decStrField (getField fs "rarity")
      let rw ← decArrField decCBReward (getField fs "rewards")
      let ob ← decArrField decCBObjective (getField fs "objectives")
      let op ← decCBOptionsField (getField fs "options")
      pure ⟨q, r, rw, ob, op⟩
  | _ => none

def encBCReward (r : BundleCompletionReward) : JVal :=
  .obj [("templateId", .str r.templateID), ("quantity", .num r.quantity)]

def decBCReward : JVal → Option BundleCompletionReward
  | .obj fs => do
      let t ← decStrField (getField fs "templateId")
      let q ← decIntField (getField fs "quantity")
      pure ⟨t, q⟩
  | _ => none

def encBundle (b : AthenaChallengeBundle) : JVal :=
  .obj [("templateId", .str b.templateID),
        ("challengeBundleSchedule", .str b.challengeBundleSchedule),
        ("objects", .arr (b.objects.map encCBObject)),
        ("amount", .num b.amount),
        ("rarity", .str b.rarity),
        ("completionRewards", .arr (b.completionRewards.map encBCReward))]

def decBundle : JVal → Option AthenaChallengeBundle
  | .obj fs => do
      let t ← decStrField (getField fs "templateId")
      let s ← decStrField (getField fs "challengeBundleSchedule")
      let o ← decArrField decCBObject (getField fs "objects")
      let a ← decIntField (getField fs "amount")
      let r ← decStrField (getField fs "rarity")
      let c ← decArrField decBCReward (getField fs "completionRewards")
      pure ⟨t, s, o, a, r, c⟩
  | _ => none

def encSchedule (s : ChallengeBundleSchedule) : JVal :=
  .obj [("templateId", .str s.templateID), ("questBundle", .str s.questBundle)]

def decSchedule : JVal → Option ChallengeBundleSchedule
  | .obj fs => do
      let t ← decStrField (getField fs "templateId")
      let q ← decStrField (getField fs "questBundle")
      pure ⟨t, q⟩
  | _ => none

/-- Decode a `map[string]BaseQuest` (the `GetDailyQuests` result shape). -/
def decQuestMap : JVal → Option (List (String × BaseQuest))
  | .null => some []
  | .obj fs =>
      let rec go : List (String × JVal) → Option (List (String × BaseQuest))
        | [] => some []
        | (k, v) :: rest => do
            let q ← decBaseQuest v
            let tl ← go rest
            pure ((k, q) :: tl)
      go fs
  | _ => none

/-- Decode a `[]AthenaChallengeBundle` (top-level array, `null` keeps nil). -/
def decBundleList : JVal → Option (List AthenaChallengeBundle)
  | .null => some []
  | .arr xs => decList decBundle xs
  | _ => none

/-- Decode a `[]ChallengeBundleSchedule`. -/
def decScheduleList : JVal → Option (List ChallengeBundleSchedule)
  | .null => some []
  | .arr xs => decList decSchedule xs
  | _ => none

/-! ## Typed RPC surface (`models.go`)

Each method mirrors its Go body: optional local argument validation, one call
to `invoke` with the fixed method name, then `unmarshalResult` into the typed
target. Results pair the transport-call count with the Go return value. -/

def Client.GetServiceStatus (c : Client) (tr : TransportBehavior)
    (ctx : Option Ctx) (now : Nat) : Nat × Except HubErr ServiceStatus :=
  match c.invoke tr ctx now "GetServiceStatus" [] with
  | (n, .error e) => (n, .error e)
  | (n, .ok val) => (n, c.unmarshalResult val decServiceStatus)

def Client.GetDailyQuests (c : Client) (tr : TransportBehavior)
    (ctx : Option Ctx) (now : Nat) :
    Nat × Except HubErr (List (String × BaseQuest)) :=
  match c.invoke tr ctx now "GetDailyQuests" [] with
  | (n, .error e) => (n, .error e)
  | (n, .ok val) => (n, c.unmarshalResult val decQuestMap)

def Client.GetDailyQuest (c : Client) (tr : TransportBehavior)
    (ctx : Option Ctx) (now : Nat) (questID : String) :
    Nat × Except HubErr BaseQuest :=
  if questID = "" then
    (0, .error .invalidQuestID)
  else
    match c.invoke tr ctx now "GetDailyQuest" [.str questID] with
    | (n, .error e) => (n, .error e)
    | (n, .ok val) => (n, c.unmarshalResult val decBaseQuest)

def Client.GetChallengeBundles (c : Client) (tr : TransportBehavior)
    (ctx : Option Ctx) (now : Nat) :
    Nat × Except HubErr (List AthenaChallengeBundle) :=
  match c.invoke tr ctx now "GetChallengeBundles" [] with
  | (n, .error e) => (n, .error e)
  | (n, .ok val) => (n, c.unmarshalResult val decBundleList)

def Client.GetChallengeBundle (c : Client) (tr : TransportBehavior)
    (ctx : Option Ctx) (now : Nat) (templateID : String) :
    Nat × Except HubErr AthenaChallengeBundle :=
  if templateID = "" then
    (0, .error .invalidTemplateID)
  else
    match c.invoke tr ctx now "GetChallengeBundle" [.str templateID] with
    | (n, .error e) => (n, .error e)
    | (n, .ok val) => (n, c.unmarshalResult val decBundle)

def Client.GetChallengeBundleSchedules (c : Client) (tr : TransportBehavior)
    (ctx : Option Ctx) (now : Nat) :
    Nat × Except HubErr (List ChallengeBundleSchedule) :=
  match c.invoke tr ctx now "GetChallengeBundleSchedules" [] with
  | (n, .error e) => (n, .error e)
  | (n, .ok val) => (n, c.unmarshalResult val decScheduleList)

def Client.ClearCache (c : Client) (tr : TransportBehavior)
    (ctx : Option Ctx) (now : Nat) : Nat × Except HubErr CacheResult :=
  match c.invoke tr ctx now "ClearCache" [] with
  | (n, .error e) => (n, .error e)
  | (n, .ok val) => (n, c.unmarshalResult val decCacheResult)

/-- `RefreshCache` is fire-and-forget: the decoded result is discarded and only
the error, if any, is surfaced. -/
def Client.RefreshCache (c : Client) (tr : TransportBehavior)
    (ctx : Option Ctx) (now : Nat) : Nat × Option HubErr :=
  match c.invoke tr ctx now "RefreshCache" [] with
  | (n, .error e) => (n, some e)
  | (n, .ok _) => (n, none)

/-! ## Connection lifecycle (`Connect`, `Disconnect`, `watchStates`)

The transition system below runs the `Client` record together with environment
bookkeeping: which created transport handles have been started and not stopped
(`startedHandles`) and which state-watch subscriptions still have a live
consuming loop (`watchLoops`). Handles are numbered by creation order. -/

/-- One iteration of the `watchStates` loop body on an observed state. `lastErr`
is `c.connection.Err()` at that moment (`none` = Go `nil`). Returns the updated
client and the list of handler dispatches launched: handler identifier paired
with the error value passed (kept as `Option` to record that a `nil` error is
never dispatched). `ClientCreated` and `ClientConnecting` match no case of the
Go `switch`. -/
def Client.watchStep (c : Client) (lastErr : Option HubErr) (st : SigClientState) :
    Client × List (Nat × Option HubErr) :=
  match st with
  | .clientConnected => ({ c with connected := true }, [])
  | .clientClosed =>
      let err : Option HubErr :=
        match lastErr with
        | some e => some e
        | none => some .notConnected
      ({ c with connected := false },
       c.disconnectHandlers.map (fun h => (h, err)))
  | _ => (c, [])

/-- Environment outcome of the two fallible creation steps inside `Connect`:
`signalr.NewHTTPConnection` and `signalr.NewClient`. -/
inductive ConnectEnv where
  | connFail (msg : String) : ConnectEnv
  | clientFail (msg : String) : ConnectEnv
  | ok : ConnectEnv

/-- The world a `Client` runs in: the record itself plus bookkeeping of created
handles. `startedHandles` lists handles with `Start` called and `Stop` not yet
called; `watchLoops` lists subscriptions whose `watchStates` loop is running
(a loop exits when its subscription is cancelled and its stream closes). -/
structure World where
  client : Client
  startedHandles : List Nat
  watchLoops : List Nat
  nextHandle : Nat
deriving DecidableEq, Repr

/-- World of a freshly constructed client (`NewClient` plus options applied). -/
def World.init (c : Client) : World :=
  { client := c, startedHandles := [], watchLoops := [], nextHandle := 0 }

/-- Model of `Client.Connect`. Mirrors the Go body: early `nil` return when the
connected flag is set; on either creation failure a wrapped error with the world
unchanged; on success the new handle is installed as `connection`, the
state-change subscription is recorded in `observeCancel`, one `watchStates`
loop is launched for it, and the transport is started. -/
def World.connect (w : World) (env : ConnectEnv) : World × Option HubErr :=
  if w.client.connected then
    (w, none)
  else
    match env with
    | .connFail e =>
        (w, some (.wrapCause "failed to create connection" (.external e)))
    | .clientFail e =>
        (w, some (.wrapCause "failed to create client" (.external e)))
    | .ok =>
        let h := w.nextHandle
        ({ client := { w.client with connection := some h, observeCancel := some h }
           startedHandles := w.startedHandles ++ [h]
           watchLoops := w.watchLoops ++ [h]
           nextHandle := h + 1 }, none)

/-- Model of `Client.Disconnect`. Mirrors the Go body: with no connection, only
the connected flag is cleared; otherwise the state subscription is cancelled
(ending its watch loop), the transport is stopped, and the connected flag is
cleared. Note the Go code leaves `c.connection` set. -/
def World.disconnect (w : World) : World × Option HubErr :=
  match w.client.connection with
  | none =>
      ({ w with client := { w.client with connected := false } }, none)
  | some h =>
      let w1 :=
        match w.client.observeCancel with
        | some s =>
            { w with
                watchLoops := w.watchLoops.erase s
                client := { w.client with observeCancel := none } }
        | none => w
      ({ w1 with
          startedHandles := w1.startedHandles.erase h
          client := { w1.client with connected := false } }, none)

/-- Model of `Client.IsConnected`. -/
def World.isConnected (w : World) : Bool := w.client.connected

/-- An external interaction with the client: a `Connect` call with its
environment outcome, a `Disconnect` call, or the watch loop observing one state
transition (with the transport's last recorded error at that moment). -/
inductive Action where
  | connect (env : ConnectEnv) : Action
  | disconnect : Action
  | observe (lastErr : Option HubErr) (st : SigClientState) : Action

/-- Apply one action to the world (handler dispatches are not tracked here). -/
def World.stepA (w : World) (a : Action) : World :=
  match a with
  | .connect env => (w.connect env).1
  | .disconnect => (w.disconnect).1
  | .observe le st =>
      { w with client := (w.client.watchStep le st).1 }

/-- Run a sequence of actions from a world. -/
def World.run (w : World) : List Action → World
  | [] => w
  | a :: tr => (w.stepA a).run tr

/-- Discipline under which `Connect` keeps a single handle: a `Connect` call is
made only while the connected flag is set (where it is a no-op) or after the
previous handle and watch loop are fully torn down. -/
def connectGuard (w : World) : Action → Bool
  | .connect _ => w.client.connected || (w.startedHandles.isEmpty && w.watchLoops.isEmpty)
  | _ => true

/-- A trace is guarded when every action satisfies `connectGuard` in the world
it executes in. -/
def guardedRun (w : World) : List Action → Bool
  | [] => true
  | a :: tr => connectGuard w a && guardedRun (w.stepA a) tr

/-- A sample client whose connected flag is set, as the watch loop leaves it
after observing a `ClientConnected` transition. -/
def connectedClient : Client :=
  { newClient "http://localhost:5294/hub" with connected := true, connection := some 0 }

/-! ## Theorems -/

/-- Unfolding of `invoke` for a connected client: one transport submission,
raced against the effective deadline. -/
theorem invoke_connected_eq (c : Client) (tr : TransportBehavior)
    (ctx0 : Option Ctx) (now : Nat) (method : String) (args : List JVal)
    (h : c.connected = true) :
    c.invoke tr ctx0 now method args =
      match tr with
      | .reply arrival res =>
          if arrival < effectiveDeadline ctx0 now c.timeout then
            match res.error with
            | some cause => (1, .error (.wrapSentinel .invokeFailed method cause))
            | none => (1, .ok res.value)
          else
            (1, .error (.wrapSentinel .connectionTimeout method ctxDeadlineExceeded))
      | .silent =>
          (1, .error (.wrapSentinel .connectionTimeout method ctxDeadlineExceeded)) := by
  rcases ctx0 with _ | ⟨_ | d⟩ <;>
    simp [Client.invoke, h, effectiveDeadline, Ctx.background]

/-- C1: while the connected flag is false, `invoke` — and with it every typed
RPC method that reaches it — returns the `NotConnected` error with zero calls
submitted to the transport, for every method name, argument list, context and
transport behaviour. (The two identifier-taking methods reach `invoke` exactly
when their identifier is nonempty.) -/
theorem invoke_disconnected_no_call (c : Client) (tr : TransportBehavior)
    (ctx : Option Ctx) (now : Nat) (method : String) (args : List JVal)
    (questID templateID : String)
    (h : c.connected = false) (hq : questID ≠ "") (ht : templateID ≠ "") :
    c.invoke tr ctx now method args = (0, .error .notConnected)
    ∧ c.GetServiceStatus tr ctx now = (0, .error .notConnected)
    ∧ c.GetDailyQuests tr ctx now = (0, .error .notConnected)
    ∧ c.GetDailyQuest tr ctx now questID = (0, .error .notConnected)
    ∧ c.GetChallengeBundles tr ctx now = (0, .error .notConnected)
    ∧ c.GetChallengeBundle tr ctx now templateID = (0, .error .notConnected)
    ∧ c.GetChallengeBundleSchedules tr ctx now = (0, .error .notConnected)
    ∧ c.ClearCache tr ctx now = (0, .error .notConnected)
    ∧ c.RefreshCache tr ctx now = (0, some HubErr.notConnected) := by
  have hinv : ∀ m a, c.invoke tr ctx now m a = (0, .error .notConnected) := by
    intro m a
    simp [Client.invoke, h]
  refine ⟨hinv _ _, ?_, ?_, ?_, ?_, ?_, ?_, ?_, ?_⟩ <;>
    simp [Client.GetServiceStatus, Client.GetDailyQuests, Client.GetDailyQuest,
      Client.GetChallengeBundles, Client.GetChallengeBundle,
      Client.GetChallengeBundleSchedules, Client.ClearCache, Client.RefreshCache,
      hinv, hq, ht]

/-- Closed instance of `invoke_disconnected_no_call` on a freshly constructed
client, a silent transport and an unlimited context. -/
theorem invoke_disconnected_no_call_witness :
    (newClient "http://localhost:5294/hub").connected = false
    ∧ (newClient "http://localhost:5294/hub").invoke .silent none 0 "GetServiceStatus" []
        = (0, .error .notConnected)
    ∧ (newClient "http://localhost:5294/hub").GetDailyQuest .silent none 0 "q1"
        = (0, .error .notConnected) := by
  have h := invoke_disconnected_no_call (newClient "http://localhost:5294/hub")
    .silent none 0 "GetServiceStatus" [] "q1" "b1" rfl (by decide) (by decide)
  exact ⟨rfl, h.1, h.2.2.2.1⟩

/-- C2: the deadline `invoke` races against is exactly `effectiveDeadline`:
`invoke` behaves identically to a call whose context carries that deadline
explicitly, and the effective deadline is the caller's deadline unchanged when
one is present, and the configured default timeout counted from the moment of
the call when none is. -/
theorem invoke_effective_deadline (c : Client) (tr : TransportBehavior)
    (ctx0 : Option Ctx) (now : Nat) (method : String) (args : List JVal) :
    c.invoke tr ctx0 now method args
      = c.invoke tr (some ⟨some (effectiveDeadline ctx0 now c.timeout)⟩) now method args
    ∧ (∀ cx, ctx0 = some cx → cx.deadline = none →
        effectiveDeadline ctx0 now c.timeout = now + c.timeout)
    ∧ (ctx0 = none → effectiveDeadline ctx0 now c.timeout = now + c.timeout)
    ∧ (∀ cx d, ctx0 = some cx → cx.deadline = some d →
        effectiveDeadline ctx0 now c.timeout = d) := by
  refine ⟨?_, ?_, ?_, ?_⟩
  · rcases ctx0 with _ | ⟨_ | d⟩ <;>
      simp [Client.invoke, effectiveDeadline, Ctx.background]
  · rintro ⟨dl⟩ rfl h
    simp at h
    simp [effectiveDeadline, h]
  · rintro rfl
    rfl
  · rintro ⟨dl⟩ d rfl h
    simp at h
    simp [effectiveDeadline, h]

/-- Closed instance of `invoke_effective_deadline`: a caller deadline of 12 is
used unchanged, and a deadline-free context gets `now + timeout`. -/
theorem invoke_effective_deadline_witness :
    effectiveDeadline (some ⟨some 12⟩) 5 (newClient "u").timeout = 12
    ∧ effectiveDeadline (some ⟨none⟩) 5 (newClient "u").timeout = 5 + (newClient "u").timeout := by
  constructor
  · exact (invoke_effective_deadline (newClient "u") .silent (some ⟨some 12⟩) 5 "m" []).2.2.2
      ⟨some 12⟩ 12 rfl rfl
  · exact (invoke_effective_deadline (newClient "u") .silent (some ⟨none⟩) 5 "m" []).2.1
      ⟨none⟩ rfl rfl

/-- C10: a `nil` caller context never faults `invoke`: it is replaced by the
background context (the two calls are equal in every component, transport-call
count included), and that context then receives the configured default timeout
as its deadline. -/
theorem invoke_nil_context (c : Client) (tr : TransportBehavior) (now : Nat)
    (method : String) (args : List JVal) :
    c.invoke tr none now method args = c.invoke tr (some Ctx.background) now method args
    ∧ effectiveDeadline none now c.timeout = now + c.timeout :=
  ⟨rfl, rfl⟩

/-- C3: exhaustive classification of a connected-state `invoke`: a remote error
that arrives before the effective deadline is wrapped in the `InvokeFailed`
sentinel with the method name and cause; a result that arrives in time without
a remote error is returned raw; a late or never-arriving result yields the
`ConnectionTimeout` sentinel wrapped with the method name and the context's
error. Exactly one transport submission happens in every case. -/
theorem invoke_result_classification (c : Client) (tr : TransportBehavior)
    (ctx0 : Option Ctx) (now : Nat) (method : String) (args : List JVal)
    (h : c.connected = true) :
    (∀ arrival res cause, tr = .reply arrival res →
        arrival < effectiveDeadline ctx0 now c.timeout → res.error = some cause →
        c.invoke tr ctx0 now method args
          = (1, .error (.wrapSentinel .invokeFailed method cause)))
    ∧ (∀ arrival res, tr = .reply arrival res →
        arrival < effectiveDeadline ctx0 now c.timeout → res.error = none →
        c.invoke tr ctx0 now method args = (1, .ok res.value))
    ∧ (∀ arrival res, tr = .reply arrival res →
        effectiveDeadline ctx0 now c.timeout ≤ arrival →
        c.invoke tr ctx0 now method args
          = (1, .error (.wrapSentinel .connectionTimeout method ctxDeadlineExceeded)))
    ∧ (tr = .silent →
        c.invoke tr ctx0 now method args
          = (1, .error (.wrapSentinel .connectionTimeout method ctxDeadlineExceeded))) := by
  refine ⟨?_, ?_, ?_, ?_⟩
  · rintro arrival res cause rfl hlt herr
    rw [invoke_connected_eq c _ ctx0 now method args h]
    simp [hlt, herr]
  · rintro arrival res rfl hlt herr
    rw [invoke_connected_eq c _ ctx0 now method args h]
    simp [hlt, herr]
  · rintro arrival res rfl hge
    rw [invoke_connected_eq c _ ctx0 now method args h]
    simp [Nat.not_lt.mpr hge]
  · rintro rfl
    rw [invoke_connected_eq c _ ctx0 now method args h]

/-- Closed instance of `invoke_result_classification`: on a connected client a
result arriving at time 1 against a deadline of 10 is returned raw. -/
theorem invoke_result_classification_witness :
    connectedClient.connected = true
    ∧ connectedClient.invoke (.reply 1 ⟨.str "v", none⟩) (some ⟨some 10⟩) 0 "GetServiceStatus" []
        = (1, .ok (.str "v")) := by
  refine ⟨rfl, ?_⟩
  exact (invoke_result_classification connectedClient (.reply 1 ⟨.str "v", none⟩)
    (some ⟨some 10⟩) 0 "GetServiceStatus" [] rfl).2.1 1 ⟨.str "v", none⟩ rfl (by decide) rfl

/-- C7: an empty identifier is rejected locally with the domain-specific
invalid-identifier error, for every connection state, context and transport
behaviour, with zero calls submitted to the transport. -/
theorem empty_identifier_rejected_locally (c : Client) (tr : TransportBehavior)
    (ctx : Option Ctx) (now : Nat) :
    c.GetDailyQuest tr ctx now "" = (0, .error .invalidQuestID)
    ∧ c.GetChallengeBundle tr ctx now "" = (0, .error .invalidTemplateID) :=
  ⟨rfl, rfl⟩

/-- C4: when the watch loop observes a `ClientClosed` transition it clears the
connected flag and dispatches exactly the point-in-time snapshot of the
disconnect-handler registry, each handler once, every dispatch carrying the
transport's last recorded error or `ErrNotConnected` when the transport reports
none — never a `nil` error. -/
theorem watch_closed_dispatch (c : Client) (lastErr : Option HubErr) :
    ((c.watchStep lastErr .clientClosed).1.connected = false)
    ∧ (c.watchStep lastErr .clientClosed).2
        = c.disconnectHandlers.map (fun h => (h, some (lastErr.getD .notConnected)))
    ∧ ((c.watchStep lastErr .clientClosed).2.map Prod.fst = c.disconnectHandlers)
    ∧ ((c.watchStep lastErr .clientClosed).2.all (fun p => p.2.isSome) = true) := by
  cases lastErr <;>
    simp [Client.watchStep, List.all_eq_true, List.map_map, Function.comp_def]

/-- C5: `Connect` while the connected flag is set is a complete no-op returning
no error (no handle is created, nothing in the world changes), and `Disconnect`
from every state — including with no Transport Handle installed — returns no
error and leaves the connected flag false. -/
theorem connect_disconnect_idempotent :
    (∀ (w : World) (env : ConnectEnv), w.client.connected = true →
        w.connect env = (w, none))
    ∧ (∀ w : World, (w.disconnect).2 = none ∧ (w.disconnect).1.client.connected = false) := by
  constructor
  · intro w env h
    simp [World.connect, h]
  · intro w
    rcases hc : w.client.connection with _ | h
    · simp [World.disconnect, hc]
    · rcases ho : w.client.observeCancel with _ | s <;>
        simp [World.disconnect, hc, ho]

/-- Closed instance of `connect_disconnect_idempotent`: a connected world is
returned unchanged by `Connect`, and a fresh world survives two `Disconnect`
calls with no error and a false flag. -/
theorem connect_disconnect_idempotent_witness :
    (World.init connectedClient).client.connected = true
    ∧ (World.init connectedClient).connect .ok = (World.init connectedClient, none)
    ∧ (((World.init (newClient "u")).disconnect).1.disconnect).2 = none
    ∧ ((((World.init (newClient "u")).disconnect).1.disconnect).1.client.connected = false) := by
  refine ⟨rfl, connect_disconnect_idempotent.1 (World.init connectedClient) .ok rfl, ?_, ?_⟩
  · exact (connect_disconnect_idempotent.2 ((World.init (newClient "u")).disconnect).1).1
  · exact (connect_disconnect_idempotent.2 ((World.init (newClient "u")).disconnect).1).2

/-- C6: when either creation step inside `Connect` fails, `Connect` returns the
wrapped creation error and the world — connected flag, installed handle,
started handles, watch loops and both handler registries — is exactly
unchanged. -/
theorem connect_creation_failure_unchanged (w : World) (e : String)
    (h : w.client.connected = false) :
    w.connect (.connFail e)
      = (w, some (.wrapCause "failed to create connection" (.external e)))
    ∧ w.connect (.clientFail e)
      = (w, some (.wrapCause "failed to create client" (.external e))) := by
  constructor <;> simp [World.connect, h]

/-- Closed instance of `connect_creation_failure_unchanged` on a fresh world. -/
theorem connect_creation_failure_unchanged_witness :
    (World.init (newClient "u")).client.connected = false
    ∧ (World.init (newClient "u")).connect (.connFail "dial tcp: refused")
        = (World.init (newClient "u"),
           some (.wrapCause "failed to create connection" (.external "dial tcp: refused"))) :=
  ⟨rfl, (connect_creation_failure_unchanged (World.init (newClient "u"))
    "dial tcp: refused" rfl).1⟩

/-- C9 counterexample: two consecutive successful `Connect` calls on a fresh
client — the second arriving before any `ClientConnected` transition has been
observed, so the connected flag is still false — install two started transport
handles and two running watch loops at once. -/
theorem duplicate_handle_reachable :
    ((World.init (newClient "u")).run [.connect .ok, .connect .ok]).startedHandles.length = 2
    ∧ ((World.init (newClient "u")).run [.connect .ok, .connect .ok]).watchLoops.length = 2 :=
  ⟨rfl, rfl⟩

/-- Preservation lemma for the single-handle invariant under guarded actions. -/
theorem single_handle_step (w : World) (a : Action)
    (hs : w.startedHandles.length ≤ 1) (hl : w.watchLoops.length ≤ 1)
    (hg : connectGuard w a = true) :
    (w.stepA a).startedHandles.length ≤ 1 ∧ (w.stepA a).watchLoops.length ≤ 1 := by
  cases a with
  | connect env =>
      rcases hc : w.client.connected
      · have hempty : w.startedHandles.isEmpty = true ∧ w.watchLoops.isEmpty = true := by
          simpa [connectGuard, hc] using hg
        have hs0 : w.startedHandles = [] := List.isEmpty_iff.mp hempty.1
        have hl0 : w.watchLoops = [] := List.isEmpty_iff.mp hempty.2
        cases env <;> simp [World.stepA, World.connect, hc, hs0, hl0]
      · simp [World.stepA, World.connect, hc, hs, hl]
  | disconnect =>
      rcases hc : w.client.connection with _ | h
      · simpa [World.stepA, World.disconnect, hc] using ⟨hs, hl⟩
      · rcases ho : w.client.observeCancel with _ | s
        · refine ⟨?_, ?_⟩ <;> simp [World.stepA, World.disconnect, hc, ho]
          · exact le_trans ((w.startedHandles.erase_sublist h).length_le) hs
          · exact hl
        · refine ⟨?_, ?_⟩ <;> simp [World.stepA, World.disconnect, hc, ho]
          · exact le_trans ((w.startedHandles.erase_sublist h).length_le) hs
          · exact le_trans ((w.watchLoops.erase_sublist s).length_le) hl
  | observe le st =>
      simpa [World.stepA] using ⟨hs, hl⟩

/-- C9 amended: along every guarded trace — one where `Connect` is called only
while the connected flag is set (a no-op) or after the previous handle and its
watch loop are fully torn down — at most one transport handle is started and at
most one watch loop runs. -/
theorem single_handle_under_guard (c : Client) (tr : List Action)
    (h : guardedRun (World.init c) tr = true) :
    ((World.init c).run tr).startedHandles.length ≤ 1
    ∧ ((World.init c).run tr).watchLoops.length ≤ 1 := by
  have main : ∀ (tr : List Action) (w : World),
      w.startedHandles.length ≤ 1 → w.watchLoops.length ≤ 1 →
      guardedRun w tr = true →
      (w.run tr).startedHandles.length ≤ 1 ∧ (w.run tr).watchLoops.length ≤ 1 := by
    intro tr
    induction tr with
    | nil => intro w hs hl _; exact ⟨hs, hl⟩
    | cons a rest ih =>
        intro w hs hl hg
        rw [guardedRun, Bool.and_eq_true] at hg
        have hstep := single_handle_step w a hs hl hg.1
        exact ih (w.stepA a) hstep.1 hstep.2 hg.2
  exact main tr (World.init c) (by simp [World.init]) (by simp [World.init]) h

/-- Closed instance of `single_handle_under_guard`: connect, tear down, connect
again — a guarded trace ending with a single started handle and watch loop. -/
theorem single_handle_under_guard_witness :
    guardedRun (World.init (newClient "u")) [.connect .ok, .disconnect, .connect .ok] = true
    ∧ ((World.init (newClient "u")).run
        [.connect .ok, .disconnect, .connect .ok]).startedHandles.length ≤ 1
    ∧ ((World.init (newClient "u")).run
        [.connect .ok, .disconnect, .connect .ok]).watchLoops.length ≤ 1 := by
  have h := single_handle_under_guard (newClient "u")
    [.connect .ok, .disconnect, .connect .ok] (by decide)
  exact ⟨by decide, h.1, h.2⟩

/-- Round-trip of `decList` over an encoded list, from the element law. -/
theorem decList_map_enc {α : Type} (enc : α → JVal) (dec : JVal → Option α)
    (h : ∀ a, dec (enc a) = some a) :
    ∀ l : List α, decList dec (l.map enc) = some l := by
  intro l
  induction l with
  | nil => rfl
  | cons a tl ih => simp [decList, h, ih]

theorem decServiceStatus_enc (s : ServiceStatus) :
    decServiceStatus (encServiceStatus s) = some s := rfl

theorem decReadyStatus_enc (r : ReadyStatus) :
    decReadyStatus (encReadyStatus r) = some r := by
  rcases r with ⟨i, v, f⟩
  cases f <;> rfl

theorem decCacheResult_enc (cr : CacheResult) :
    decCacheResult (encCacheResult cr) = some cr := by
  rcases cr with ⟨s, v, k, p, ⟨ts⟩⟩
  cases p with
  | nil => rfl
  | cons x xs =>
      have hlist : decList decStrElem ((x :: xs).map JVal.str) = some (x :: xs) :=
        decList_map_enc JVal.str decStrElem (fun _ => rfl) (x :: xs)
      simp only [List.map_cons] at hlist
      simp [encCacheResult, decCacheResult, getField, decBoolField, decStrField,
        decIntField, decTimeField, decArrField, hlist]

theorem decBaseQuest_enc (q : BaseQuest) :
    decBaseQuest (encBaseQuest q) = some q := rfl

theorem decCBReward_enc (r : ChallengeBundleReward) :
    decCBReward (encCBReward r) = some r := rfl

theorem decCBObjective_enc (o : ChallengeBundleObjective) :
    decCBObjective (encCBObjective o) = some o := by
  rcases o with ⟨b, c, s⟩
  by_cases hs : s = 0
  · subst hs
    rfl
  · have hs' : (s == 0) = false := by simpa using hs
    simp [encCBObjective, decCBObjective, getField, decStrField, decIntField, hs']

theorem decCBOptions_enc (o : ChallengeBundleOptions) :
    decCBOptions (encCBOptions o) = some o := rfl

theorem decCBObject_enc (o : ChallengeBundleObject) :
    decCBObject (encCBObject o) = some o := by
  rcases o with ⟨q, r, rw, ob, op⟩
  have h1 : decList decCBReward (rw.map encCBReward) = some rw :=
    decList_map_enc encCBReward decCBReward decCBReward_enc rw
  have h2 : decList decCBObjective (ob.map encCBObjective) = some ob :=
    decList_map_enc encCBObjective decCBObjective decCBObjective_enc ob
  have h3 : decCBOptionsField (some (encCBOptions op)) = some op := by
    cases op
    rfl
  simp [encCBObject, decCBObject, getField, decStrField, decArrField, h1, h2, h3]

theorem decBCReward_enc (r : BundleCompletionReward) :
    decBCReward (encBCReward r) = some r := rfl

theorem decBundle_enc (b : AthenaChallengeBundle) :
    decBundle (encBundle b) = some b := by
  rcases b with ⟨t, s, o, a, r, c⟩
  have h1 : decList decCBObject (o.map encCBObject) = some o :=
    decList_map_enc encCBObject decCBObject decCBObject_enc o
  have h2 : decList decBCReward (c.map encBCReward) = some c :=
    decList_map_enc encBCReward decBCReward decBCReward_enc c
  simp [encBundle, decBundle, getField, decStrField, decIntField, decArrField, h1, h2]

theorem decSchedule_enc (s : ChallengeBundleSchedule) :
    decSchedule (encSchedule s) = some s := rfl

/-- C8: encoding any value of the typed payload types to the canonical
interchange form and decoding it back through the generic result decoder
(`unmarshalResult`) reproduces the value exactly — including when `omitempty`
fields (`refreshed`, `patterns`, `stage`) are omitted from the encoding. -/
theorem payload_roundtrip :
    (∀ (c : Client) (s : ServiceStatus),
        c.unmarshalResult (encServiceStatus s) decServiceStatus = .ok s)
    ∧ (∀ (c : Client) (r : ReadyStatus),
        c.unmarshalResult (encReadyStatus r) decReadyStatus = .ok r)
    ∧ (∀ (c : Client) (cr : CacheResult),
        c.unmarshalResult (encCacheResult cr) decCacheResult = .ok cr)
    ∧ (∀ (c : Client) (q : BaseQuest),
        c.unmarshalResult (encBaseQuest q) decBaseQuest = .ok q)
    ∧ (∀ (c : Client) (b : AthenaChallengeBundle),
        c.unmarshalResult (encBundle b) decBundle = .ok b)
    ∧ (∀ (c : Client) (s : ChallengeBundleSchedule),
        c.unmarshalResult (encSchedule s) decSchedule = .ok s) := by
  refine ⟨?_, ?_, ?_, ?_, ?_, ?_⟩ <;> intro c x <;>
    simp [Client.unmarshalResult, decServiceStatus_enc, decReadyStatus_enc,
      decCacheResult_enc, decBaseQuest_enc, decBundle_enc, decSchedule_enc]

end QuestHub


